import Mathlib

/-
Verification of the query_builder Select component.

The Python source under verification is query_builder/select.py.  The
collaborators it imports (psycopg2.sql, query_builder.where, query_builder.join,
query_builder.utilities.get_columns_composed) are embedded as follows:

* psycopg2.sql composition is embedded at the string level: sql.Identifier
  renders a name between double quotes with embedded double quotes doubled,
  sql.Literal renders the adapted value inline (integers in decimal, strings
  between single quotes with embedded single quotes doubled), sql.SQL text is
  kept verbatim, and format/join concatenate.  A bound value placeholder is
  the text %s.
* Where, Join and get_columns_composed are not part of the given source tree;
  they are modelled from the specification, see the doc comments below.
-/

/-- A value bound into a query: the embedding keeps the two shapes the
specification scenarios use, integers and strings. -/
inductive Value where
  | int (n : Int)
  | str (s : String)
deriving DecidableEq, Repr

/-- Rendering of psycopg2 sql.Literal: the adapted value is placed inline in
the statement text (integers in decimal, strings quoted with doubled internal
quotes), not as a placeholder. -/
def Value.asLiteral : Value → String
  | .int n => toString n
  | .str s => "\x27" ++ String.mk (s.data.flatMap fun c => if c == '\x27' then [c, c] else [c]) ++ "\x27"

/-- Double every double-quote character, as psycopg2 identifier quoting does. -/
def escQuote : List Char → List Char
  | [] => []
  | c :: cs => if c == '"' then c :: c :: escQuote cs else c :: escQuote cs

/-- Rendering of psycopg2 sql.Identifier: the name between double quotes with
embedded double quotes doubled. -/
def quoteIdent (s : String) : String :=
  String.mk ('"' :: escQuote s.data ++ ['"'])

/-- A rendered token: plain statement text, or a placeholder carrying the
value bound to it.  Tokens are the device used to state the correspondence
between placeholder positions and parameter positions. -/
inductive Tok where
  | txt (s : String)
  | ph (v : Value)
deriving DecidableEq, Repr

/-- The text a token contributes to the statement: a placeholder renders
as %s whatever value it binds. -/
def Tok.render : Tok → String
  | .txt s => s
  | .ph _ => "%s"

/-- Concatenation of the texts of a token list. -/
def tokString : List Tok → String
  | [] => ""
  | t :: ts => t.render ++ tokString ts

/-- The values carried by the placeholder tokens, left to right. -/
def phParams : List Tok → List Value
  | [] => []
  | .ph v :: ts => v :: phParams ts
  | .txt _ :: ts => phParams ts

/-- Number of placeholder tokens in a list. -/
def phCount : List Tok → Nat
  | [] => 0
  | .ph _ :: ts => phCount ts + 1
  | .txt _ :: ts => phCount ts

/-- Modelled from the spec: the operators of a Where leaf that bind no value
and emit no placeholder (the IS NULL family); query_builder/where.py is not
part of the given source tree. -/
def unaryOp (op : String) : Bool :=
  op == "IS NULL" || op == "IS NOT NULL"

/-- Modelled from the spec: the Where filter tree of query_builder/where.py,
which is not part of the given source tree.  A node is either a leaf
comparison (table, column, operator, value) or a composite of two nodes under
a boolean operator (AND or OR). -/
inductive Where where
  | leaf (table column op : String) (value : Value)
  | comp (l : Where) (bop : String) (r : Where)
deriving DecidableEq, Repr

/-- Modelled from the spec: recursive render of a Where tree, returning the
SQL fragment and the bound parameters in the order their placeholders were
emitted.  A leaf renders table.column operator %s and binds its value (a
unary operator omits both placeholder and value); a composite wraps
left bop right in parentheses so precedence is explicit. -/
def Where.render : Where → String × List Value
  | .leaf t c op v =>
    if unaryOp op then
      (quoteIdent t ++ "." ++ quoteIdent c ++ " " ++ op, [])
    else
      (quoteIdent t ++ "." ++ quoteIdent c ++ " " ++ op ++ " %s", [v])
  | .comp l b r =>
    let lr := l.render
    let rr := r.render
    ("(" ++ lr.1 ++ " " ++ b ++ " " ++ rr.1 ++ ")", lr.2 ++ rr.2)

/-- Modelled from the spec: the sql property of a Where tree. -/
def Where.sql (w : Where) : String := w.render.1

/-- Modelled from the spec: the params property of a Where tree. -/
def Where.params (w : Where) : List Value := w.render.2

/-- Modelled from the spec: sql_and returns a new composite node combining
self and other under AND, mutating neither operand. -/
def Where.sql_and (w other : Where) : Where := .comp w "AND" other

/-- Modelled from the spec: sql_or returns a new composite node combining
self and other under OR, mutating neither operand. -/
def Where.sql_or (w other : Where) : Where := .comp w "OR" other

/-- Token-level rendering of a Where tree: the same render with each
placeholder kept as a token carrying its bound value. -/
def Where.toks : Where → List Tok
  | .leaf t c op v =>
    if unaryOp op then
      [.txt (quoteIdent t ++ "." ++ quoteIdent c ++ " " ++ op)]
    else
      [.txt (quoteIdent t ++ "." ++ quoteIdent c ++ " " ++ op ++ " "), .ph v]
  | .comp l b r =>
    .txt "(" :: (l.toks ++ (.txt (" " ++ b ++ " ") :: r.toks) ++ [.txt ")"])

/-- Modelled from the spec: the Join specification of query_builder/join.py,
which is not part of the given source tree: an ordered sequence of
(table, on-condition) entries. -/
structure Join where
  entries : List (String × String)
deriving DecidableEq, Repr

/-- Modelled from the spec: the joined table names, in entry order. -/
def Join.tables (j : Join) : List String := j.entries.map Prod.fst

/-- Modelled from the spec: each entry renders JOIN table ON condition,
concatenated in append order, space separated. -/
def Join.sql (j : Join) : String :=
  String.intercalate " " (j.entries.map fun e => "JOIN " ++ quoteIdent e.1 ++ " ON " ++ e.2)

/-- Modelled from the spec: merging another join spec concatenates its
entries onto self, order preserved, no deduplication. -/
def Join.merge (j k : Join) : Join := ⟨j.entries ++ k.entries⟩

/-- The column catalog collaborator: a PostgresConfig is consumed only
through get_columns_composed, so it is embedded as the map from a table name
to its catalog column names. -/
def PostgresConfig : Type := String → List String

/-- Modelled from the spec: get_columns_composed of
query_builder/utilities.py, which is not part of the given source tree,
returns the ordered list of fully qualified column identifiers of a table. -/
def get_columns_composed (table : String) (cfg : PostgresConfig) : List String :=
  (cfg table).map fun c => quoteIdent table ++ "." ++ quoteIdent c

/-- The Select builder state (select.py, __init__): the base table name and
the optional distinct, join, where, order by, limit, offset and group by
fields.  The fields that the source stores as eagerly formatted sql objects
(distinct, order by, limit, offset, group by) are kept as their rendered
text. -/
structure Select where
  table_name : String
  _distinct : Option String
  _join : Option Join
  _where : Option Where
  _order_by : Option String
  _limit : Option String
  _offset : Option String
  _group_by : Option String
deriving DecidableEq, Repr

/-- select.py __init__: every optional field starts unset. -/
def Select.make (table_name : String) : Select :=
  ⟨table_name, none, none, none, none, none, none, none⟩

/-- The table argument of several methods defaults to the base table when
not given (select.py passes table_name when the table keyword is absent). -/
def Select.resolveTable (s : Select) (table : Option String) : String :=
  match table with
  | none => s.table_name
  | some t => t

/-- select.py join: create the join on first call, merge on later calls. -/
def Select.join (s : Select) (j : Join) : Select :=
  match s._join with
  | none => { s with _join := some j }
  | some j0 => { s with _join := some (j0.merge j) }

/-- select.py get_join. -/
def Select.get_join (s : Select) : Option Join := s._join

/-- select.py where (keyword form): the table keyword defaults to the base
table; the first call stores the leaf, a later call delegates to where_and. -/
def Select.where_kw (s : Select) (table : Option String) (column op : String) (v : Value) : Select :=
  let t := s.resolveTable table
  match s._where with
  | none => { s with _where := some (.leaf t column op v) }
  | some w => { s with _where := some (w.sql_and (.leaf t column op v)) }

/-- select.py where_and (keyword form): the first call stores the leaf, a
later call replaces the root with previous-root AND new-leaf. -/
def Select.where_and (s : Select) (table : Option String) (column op : String) (v : Value) : Select :=
  let t := s.resolveTable table
  match s._where with
  | none => { s with _where := some (.leaf t column op v) }
  | some w => { s with _where := some (w.sql_and (.leaf t column op v)) }

/-- select.py where_or (keyword form): the first call stores the leaf, a
later call replaces the root with previous-root OR new-leaf. -/
def Select.where_or (s : Select) (table : Option String) (column op : String) (v : Value) : Select :=
  let t := s.resolveTable table
  match s._where with
  | none => { s with _where := some (.leaf t column op v) }
  | some w => { s with _where := some (w.sql_or (.leaf t column op v)) }

/-- select.py order_by: stores the rendering of
sql.SQL with ORDER BY {}.{} {} applied to Identifier(table or base),
Identifier(column) and the raw SQL text of direction. -/
def Select.order_by (s : Select) (column : String) (table : Option String) (direction : String) : Select :=
  { s with _order_by := some ("ORDER BY " ++ quoteIdent (s.resolveTable table) ++ "." ++ quoteIdent column ++ " " ++ direction) }

/-- select.py distinct, string argument: stores DISTINCT Identifier(columns). -/
def Select.distinct_str (s : Select) (columns : String) : Select :=
  { s with _distinct := some ("DISTINCT " ++ quoteIdent columns) }

/-- select.py distinct, column list argument: stores DISTINCT with the
identifiers joined by a comma and space. -/
def Select.distinct_list (s : Select) (columns : List String) : Select :=
  { s with _distinct := some ("DISTINCT " ++ String.intercalate ", " (columns.map quoteIdent)) }

/-- select.py order_by_sql: empty when unset. -/
def Select.order_by_sql (s : Select) : String :=
  match s._order_by with
  | none => ""
  | some x => x

/-- select.py limit: stores LIMIT Literal(limit), the value inline. -/
def Select.limit (s : Select) (v : Value) : Select :=
  { s with _limit := some ("LIMIT " ++ v.asLiteral) }

/-- select.py limit_sql: empty when unset. -/
def Select.limit_sql (s : Select) : String :=
  match s._limit with
  | none => ""
  | some x => x

/-- select.py offset: stores OFFSET Literal(offset), the value inline. -/
def Select.offset (s : Select) (v : Value) : Select :=
  { s with _offset := some ("OFFSET " ++ v.asLiteral) }

/-- select.py offset_sql: empty when unset. -/
def Select.offset_sql (s : Select) : String :=
  match s._offset with
  | none => ""
  | some x => x

/-- select.py group_by: stores the rendering of GROUP BY {}.{} applied to
Identifier(table or base) and Identifier(column). -/
def Select.group_by (s : Select) (column : String) (table : Option String) : Select :=
  { s with _group_by := some ("GROUP BY " ++ quoteIdent (s.resolveTable table) ++ "." ++ quoteIdent column) }

/-- select.py group_by_sql: empty when unset. -/
def Select.group_by_sql (s : Select) : String :=
  match s._group_by with
  | none => ""
  | some x => x

/-- select.py to_sql: the projection columns of the base table, extended by
each joined table, then the clauses combined through the template
SELECT columns FROM table join where order_by group_by offset limit,
with a space between consecutive template slots and the where slot rendered
with a leading space before WHERE. -/
def Select.to_sql (s : Select) (pg_config : PostgresConfig) : String :=
  let table_name := s.table_name
  let columns := get_columns_composed table_name pg_config
  let joinPart :=
    match s.get_join with
    | some j => (j.sql, j.tables.foldl (fun acc t => acc ++ get_columns_composed t pg_config) columns)
    | none => ("", columns)
  let join_sql := joinPart.1
  let columns := joinPart.2
  let where_sql :=
    match s._where with
    | some w => " WHERE " ++ w.sql
    | none => ""
  let order_by := s.order_by_sql
  let group_by := s.group_by_sql
  let limit := s.limit_sql
  let offset := s.offset_sql
  let columns_sql :=
    match s._distinct with
    | none => String.intercalate "," columns
    | some d => d
  "SELECT " ++ columns_sql ++ " FROM " ++ quoteIdent table_name ++ " " ++ join_sql
    ++ " " ++ where_sql ++ " " ++ order_by ++ " " ++ group_by ++ " " ++ offset ++ " " ++ limit

/-- select.py get_params: the params of the where tree, empty when no
filter was ever set. -/
def Select.get_params (s : Select) : List Value :=
  match s._where with
  | none => []
  | some w => w.params

/-- The join slot of the rendered statement: the join sql, or empty when no
join was set. -/
def Select.join_clause (s : Select) : String :=
  match s._join with
  | none => ""
  | some j => j.sql

/-- The where slot of the rendered statement: a space, WHERE and the where
tree sql, or empty when no filter was set. -/
def Select.where_clause (s : Select) : String :=
  match s._where with
  | some w => " WHERE " ++ w.sql
  | none => ""

/-- The rendered where fragment itself (without the WHERE keyword), empty
when no filter was set. -/
def Select.where_frag (s : Select) : String :=
  match s._where with
  | none => ""
  | some w => w.sql

/-- The token-level rendering of the where tree of a Select, empty when no
filter was set. -/
def Select.whereToks (s : Select) : List Tok :=
  match s._where with
  | none => []
  | some w => w.toks

/-- The projection column list to_sql works from: the base table columns
followed by the columns of each joined table, in join order. -/
def Select.full_columns (s : Select) (cfg : PostgresConfig) : List String :=
  get_columns_composed s.table_name cfg ++
    (match s._join with
     | none => []
     | some j => j.tables.flatMap fun t => get_columns_composed t cfg)

/-- The projection slot of the rendered statement: the distinct text when
set, otherwise the full column list joined by commas. -/
def Select.projection_clause (s : Select) (cfg : PostgresConfig) : String :=
  match s._distinct with
  | none => String.intercalate "," (s.full_columns cfg)
  | some d => d

/-- Whether pat occurs as a contiguous substring of s. -/
def strContains (s pat : String) : Bool :=
  (List.range (s.data.length + 1)).any fun i => pat.data.isPrefixOf (s.data.drop i)

/-- select.py to_sql with the state threaded explicitly: the method body
only reads fields of self, never assigns one, so the embedding returns the
rendered statement together with the state it finished with. -/
def Select.to_sql_st (s : Select) (pg_config : PostgresConfig) : String × Select :=
  let table_name := s.table_name
  let columns := get_columns_composed table_name pg_config
  let joinPart :=
    match s.get_join with
    | some j => (j.sql, j.tables.foldl (fun acc t => acc ++ get_columns_composed t pg_config) columns)
    | none => ("", columns)
  let join_sql := joinPart.1
  let columns := joinPart.2
  let where_sql :=
    match s._where with
    | some w => " WHERE " ++ w.sql
    | none => ""
  let order_by := s.order_by_sql
  let group_by := s.group_by_sql
  let limit := s.limit_sql
  let offset := s.offset_sql
  let columns_sql :=
    match s._distinct with
    | none => String.intercalate "," columns
    | some d => d
  let command := "SELECT " ++ columns_sql ++ " FROM " ++ quoteIdent table_name ++ " " ++ join_sql
    ++ " " ++ where_sql ++ " " ++ order_by ++ " " ++ group_by ++ " " ++ offset ++ " " ++ limit
  (command, s)

/-- select.py get_params with the state threaded explicitly: the method only
reads the where field. -/
def Select.get_params_st (s : Select) : List Value × Select :=
  match s._where with
  | none => ([], s)
  | some w => (w.params, s)

/-- The catalog of the specification scenario: table users with columns id
and name. -/
def usersCfg : PostgresConfig := fun t => if t == "users" then ["id", "name"] else []

/-- The builder of the specification scenario:
Select(users).where(column=id, operator string =, value=5).limit(10). -/
def scenarioSelect : Select :=
  ((Select.make "users").where_kw none "id" "=" (.int 5)).limit (.int 10)

/-- A catalog with a second table orders carrying one column total, for the
join scenarios. -/
def ordersCfg : PostgresConfig :=
  fun t => if t == "users" then ["id", "name"] else if t == "orders" then ["total"] else []

/-- A builder with one join, for the join scenarios. -/
def joinSelect : Select :=
  (Select.make "users").join ⟨[("orders", "users.id = orders.user_id")]⟩

theorem tokString_append (a b : List Tok) :
    tokString (a ++ b) = tokString a ++ tokString b := by
  induction a with
  | nil => simp [tokString]
  | cons t ts ih => simp [tokString, ih, String.append_assoc]

theorem phParams_append (a b : List Tok) :
    phParams (a ++ b) = phParams a ++ phParams b := by
  induction a with
  | nil => simp [phParams]
  | cons t ts ih => cases t <;> simp [phParams, ih]

theorem phCount_eq_length_phParams (ts : List Tok) :
    phCount ts = (phParams ts).length := by
  induction ts with
  | nil => simp [phCount, phParams]
  | cons t ts ih => cases t <;> simp [phCount, phParams, ih]

/-- The token list of a Where tree concatenates to its rendered sql. -/
theorem Where.toks_sql (w : Where) : tokString w.toks = w.sql := by
  induction w with
  | leaf t c op v =>
    by_cases h : unaryOp op = true <;>
      simp [Where.toks, Where.sql, Where.render, h, tokString, Tok.render, String.append_assoc]
  | comp l b r ihl ihr =>
    simp [Where.toks, Where.sql, Where.render, tokString, tokString_append, Tok.render,
      String.append_assoc, ihl, ihr]

/-- The placeholder tokens of a Where tree carry its params, in order. -/
theorem Where.toks_params (w : Where) : phParams w.toks = w.params := by
  induction w with
  | leaf t c op v =>
    by_cases h : unaryOp op = true <;>
      simp [Where.toks, Where.params, Where.render, h, phParams]
  | comp l b r ihl ihr =>
    simp [Where.toks, Where.params, Where.render, phParams, phParams_append, ihl, ihr]

theorem foldl_append_flatMap {α β : Type} (l : List α) (f : α → List β) (init : List β) :
    l.foldl (fun acc t => acc ++ f t) init = init ++ l.flatMap f := by
  induction l generalizing init with
  | nil => simp
  | cons x xs ih => simp [List.foldl_cons, ih, List.append_assoc]

/-- The rendered statement decomposes into the fixed clause sequence
SELECT projection FROM table join where order_by group_by offset limit. -/
theorem Select.to_sql_eq (s : Select) (cfg : PostgresConfig) :
    s.to_sql cfg = "SELECT " ++ s.projection_clause cfg ++ " FROM " ++ quoteIdent s.table_name
      ++ " " ++ s.join_clause ++ " " ++ s.where_clause ++ " " ++ s.order_by_sql
      ++ " " ++ s.group_by_sql ++ " " ++ s.offset_sql ++ " " ++ s.limit_sql := by
  cases hj : s._join with
  | none =>
    simp [Select.to_sql, Select.get_join, hj, Select.projection_clause, Select.full_columns,
      Select.join_clause, Select.where_clause]
  | some j =>
    simp [Select.to_sql, Select.get_join, hj, Select.projection_clause, Select.full_columns,
      Select.join_clause, Select.where_clause, foldl_append_flatMap]

/-- C1: the claim is false at the specification scenario itself.  For
Select(users) filtered on id = 5 with limit 10, over the catalog exposing
columns id and name for users, get_params is [5] and not [5, 10], and the
rendered statement carries the limit inline as the literal LIMIT 10: the text
LIMIT %s occurs nowhere in it. -/
theorem c1_counterexample :
    scenarioSelect.get_params ≠ [Value.int 5, Value.int 10]
    ∧ scenarioSelect.to_sql usersCfg
        = "SELECT \"users\".\"id\",\"users\".\"name\" FROM \"users\"   WHERE \"users\".\"id\" = %s    LIMIT 10"
    ∧ strContains (scenarioSelect.to_sql usersCfg) "LIMIT %s" = false := by
  exact ⟨by decide, by decide, by decide⟩

/-- C1 (amended): for the scenario builder over the scenario catalog, to_sql
renders SELECT users.id, users.name FROM users WHERE users.id = %s LIMIT 10,
with the limit value inlined as a SQL literal rather than emitted as a
placeholder, and get_params returns exactly [5]: only the where value is
bound. -/
theorem c1_scenario_render :
    scenarioSelect.to_sql usersCfg
      = "SELECT \"users\".\"id\",\"users\".\"name\" FROM \"users\"   WHERE \"users\".\"id\" = %s    LIMIT 10"
    ∧ scenarioSelect.get_params = [Value.int 5] := by
  exact ⟨by decide, by decide⟩

/-- C2: get_params is exactly the parameter sequence of the where tree, the
empty list when no filter was ever set; the rendered where fragment is the
concatenation of a token list whose placeholder tokens, read left to right,
carry exactly the successive elements of get_params, so the Nth placeholder
corresponds to the Nth parameter; the number of placeholders equals the
number of parameters; and the fragment occupies one contiguous slot of the
full rendered statement. -/
theorem c2_params_match_placeholders (s : Select) (cfg : PostgresConfig) :
    s.get_params = phParams s.whereToks
    ∧ s.where_frag = tokString s.whereToks
    ∧ phCount s.whereToks = s.get_params.length
    ∧ (s._where = none → s.get_params = [])
    ∧ ∃ pre post, s.to_sql cfg = pre ++ s.where_frag ++ post := by
  refine ⟨?_, ?_, ?_, ?_, ?_⟩
  · cases h : s._where <;>
      simp [Select.get_params, Select.whereToks, h, phParams, Where.toks_params]
  · cases h : s._where <;>
      simp [Select.where_frag, Select.whereToks, h, tokString, Where.toks_sql]
  · rw [phCount_eq_length_phParams]
    cases h : s._where <;>
      simp [Select.get_params, Select.whereToks, h, phParams, Where.toks_params]
  · intro h
    simp [Select.get_params, h]
  · cases h : s._where with
    | none =>
      exact ⟨s.to_sql cfg, "", by simp [Select.where_frag, h]⟩
    | some w =>
      refine ⟨"SELECT " ++ s.projection_clause cfg ++ " FROM " ++ quoteIdent s.table_name
        ++ " " ++ s.join_clause ++ " " ++ " WHERE ",
        " " ++ s.order_by_sql ++ " " ++ s.group_by_sql ++ " " ++ s.offset_sql ++ " " ++ s.limit_sql, ?_⟩
      rw [Select.to_sql_eq]
      simp only [Select.where_clause, Select.where_frag, h, String.append_assoc]

/-- C2 witness: at a fresh builder the parameter list is empty and matches
the (empty) placeholder token list. -/
theorem c2_witness :
    (Select.make "users").get_params = phParams (Select.make "users").whereToks
    ∧ (Select.make "users").get_params = [] := by
  have h := c2_params_match_placeholders (Select.make "users") usersCfg
  exact ⟨h.1, h.2.2.2.1 rfl⟩

/-- C8: order_by, group_by, limit, offset and distinct each overwrite the
previous setting, so two successive calls to the same modifier leave the
same state as the second call alone, and render identically. -/
theorem c8_last_call_wins (s : Select) (c c2 dir dir2 : String) (t t2 : Option String)
    (v v2 : Value) (cs cs2 : List String) (cfg : PostgresConfig) :
    (s.order_by c t dir).order_by c2 t2 dir2 = s.order_by c2 t2 dir2
    ∧ (s.group_by c t).group_by c2 t2 = s.group_by c2 t2
    ∧ (s.limit v).limit v2 = s.limit v2
    ∧ (s.offset v).offset v2 = s.offset v2
    ∧ (s.distinct_str c).distinct_str c2 = s.distinct_str c2
    ∧ (s.distinct_list cs).distinct_str c2 = s.distinct_str c2
    ∧ (s.distinct_str c).distinct_list cs2 = s.distinct_list cs2
    ∧ (s.distinct_list cs).distinct_list cs2 = s.distinct_list cs2
    ∧ ((s.order_by c t dir).order_by c2 t2 dir2).to_sql cfg = (s.order_by c2 t2 dir2).to_sql cfg
    ∧ ((s.limit v).limit v2).to_sql cfg = (s.limit v2).to_sql cfg := by
  exact ⟨rfl, rfl, rfl, rfl, rfl, rfl, rfl, rfl, rfl, rfl⟩

/-- C9: rendering is read only: the state threaded through to_sql and
get_params comes out unchanged, and the values produced agree with the plain
renderings, so rendering can be repeated and interleaved with further
mutators without altering the builder. -/
theorem c9_render_read_only (s : Select) (cfg : PostgresConfig) :
    (s.to_sql_st cfg).2 = s
    ∧ (s.to_sql_st cfg).1 = s.to_sql cfg
    ∧ s.get_params_st.2 = s
    ∧ s.get_params_st.1 = s.get_params := by
  refine ⟨rfl, rfl, ?_, ?_⟩
  · cases h : s._where <;> simp [Select.get_params_st, h]
  · cases h : s._where <;> simp [Select.get_params_st, Select.get_params, h]

/-- C10: order_by renders table and column as quoted identifiers but embeds
the direction string verbatim, unquoted and unvalidated, both in the stored
clause and in the statement produced by to_sql. -/
theorem c10_direction_unquoted (s : Select) (c d : String) (t : Option String)
    (cfg : PostgresConfig) :
    (s.order_by c t d)._order_by
      = some ("ORDER BY " ++ quoteIdent (s.resolveTable t) ++ "." ++ quoteIdent c ++ " " ++ d)
    ∧ (s.order_by c t d).order_by_sql
      = "ORDER BY " ++ quoteIdent (s.resolveTable t) ++ "." ++ quoteIdent c ++ " " ++ d
    ∧ ∃ pre post, (s.order_by c t d).to_sql cfg
        = pre ++ ("ORDER BY " ++ quoteIdent (s.resolveTable t) ++ "." ++ quoteIdent c ++ " " ++ d) ++ post := by
  refine ⟨rfl, rfl, ?_⟩
  refine ⟨"SELECT " ++ (s.order_by c t d).projection_clause cfg ++ " FROM "
    ++ quoteIdent (s.order_by c t d).table_name ++ " " ++ (s.order_by c t d).join_clause
    ++ " " ++ (s.order_by c t d).where_clause ++ " ",
    " " ++ (s.order_by c t d).group_by_sql ++ " " ++ (s.order_by c t d).offset_sql
    ++ " " ++ (s.order_by c t d).limit_sql, ?_⟩
  rw [Select.to_sql_eq]
  have h : (s.order_by c t d).order_by_sql
      = "ORDER BY " ++ quoteIdent (s.resolveTable t) ++ "." ++ quoteIdent c ++ " " ++ d := rfl
  rw [h]
  simp [String.append_assoc]

/-- C3: to_sql concatenates the clauses in the fixed order SELECT projection
FROM table join where order_by group_by offset limit; every clause whose
modifier was never set renders as the empty string; and a fresh builder over
the scenario catalog renders a statement free of the stray keywords JOIN,
WHERE, ORDER BY, GROUP BY, OFFSET and LIMIT. -/
theorem c3_clause_order (s : Select) (cfg : PostgresConfig) :
    s.to_sql cfg = "SELECT " ++ s.projection_clause cfg ++ " FROM " ++ quoteIdent s.table_name
      ++ " " ++ s.join_clause ++ " " ++ s.where_clause ++ " " ++ s.order_by_sql
      ++ " " ++ s.group_by_sql ++ " " ++ s.offset_sql ++ " " ++ s.limit_sql
    ∧ (s._join = none → s.join_clause = "")
    ∧ (s._where = none → s.where_clause = "")
    ∧ (s._order_by = none → s.order_by_sql = "")
    ∧ (s._group_by = none → s.group_by_sql = "")
    ∧ (s._offset = none → s.offset_sql = "")
    ∧ (s._limit = none → s.limit_sql = "")
    ∧ (Select.make "users").to_sql usersCfg
        = "SELECT \"users\".\"id\",\"users\".\"name\" FROM \"users\"      "
    ∧ strContains ((Select.make "users").to_sql usersCfg) "JOIN" = false
    ∧ strContains ((Select.make "users").to_sql usersCfg) "WHERE" = false
    ∧ strContains ((Select.make "users").to_sql usersCfg) "ORDER BY" = false
    ∧ strContains ((Select.make "users").to_sql usersCfg) "GROUP BY" = false
    ∧ strContains ((Select.make "users").to_sql usersCfg) "OFFSET" = false
    ∧ strContains ((Select.make "users").to_sql usersCfg) "LIMIT" = false := by
  refine ⟨Select.to_sql_eq s cfg, ?_, ?_, ?_, ?_, ?_, ?_,
    by decide, by decide, by decide, by decide, by decide, by decide, by decide⟩
  · intro h
    simp [Select.join_clause, h]
  · intro h
    simp [Select.where_clause, h]
  · intro h
    simp [Select.order_by_sql, h]
  · intro h
    simp [Select.group_by_sql, h]
  · intro h
    simp [Select.offset_sql, h]
  · intro h
    simp [Select.limit_sql, h]

/-- C3 witness: at the fresh builder every optional clause renders empty. -/
theorem c3_witness :
    (Select.make "users").join_clause = ""
    ∧ (Select.make "users").where_clause = ""
    ∧ (Select.make "users").order_by_sql = ""
    ∧ (Select.make "users").group_by_sql = ""
    ∧ (Select.make "users").offset_sql = ""
    ∧ (Select.make "users").limit_sql = "" := by
  have h := c3_clause_order (Select.make "users") usersCfg
  exact ⟨h.2.1 rfl, h.2.2.1 rfl, h.2.2.2.1 rfl, h.2.2.2.2.1 rfl,
    h.2.2.2.2.2.1 rfl, h.2.2.2.2.2.2.1 rfl⟩

/-- C4: when distinct is set, the rendered projection slot is exactly the
distinct text, the catalog projection columns disappear entirely (the
rendering no longer depends on the catalog at all), and a distinct call made
last still wins over whatever was set before; when distinct is unset, the
projection slot is exactly the comma joined full column list.  Exactly one
of the two shapes appears in a rendered statement. -/
theorem c4_distinct_wins (s : Select) (cfg cfg2 : PostgresConfig) (d c : String) :
    (s._distinct = some d →
      s.to_sql cfg = "SELECT " ++ d ++ " FROM " ++ quoteIdent s.table_name
        ++ " " ++ s.join_clause ++ " " ++ s.where_clause ++ " " ++ s.order_by_sql
        ++ " " ++ s.group_by_sql ++ " " ++ s.offset_sql ++ " " ++ s.limit_sql)
    ∧ (s._distinct = some d → s.to_sql cfg = s.to_sql cfg2)
    ∧ ((s.distinct_str c).to_sql cfg
        = "SELECT " ++ ("DISTINCT " ++ quoteIdent c) ++ " FROM " ++ quoteIdent s.table_name
          ++ " " ++ s.join_clause ++ " " ++ s.where_clause ++ " " ++ s.order_by_sql
          ++ " " ++ s.group_by_sql ++ " " ++ s.offset_sql ++ " " ++ s.limit_sql)
    ∧ (s._distinct = none →
      s.to_sql cfg = "SELECT " ++ String.intercalate "," (s.full_columns cfg)
        ++ " FROM " ++ quoteIdent s.table_name ++ " " ++ s.join_clause ++ " " ++ s.where_clause
        ++ " " ++ s.order_by_sql ++ " " ++ s.group_by_sql ++ " " ++ s.offset_sql
        ++ " " ++ s.limit_sql) := by
  refine ⟨?_, ?_, ?_, ?_⟩
  · intro h
    rw [Select.to_sql_eq]
    simp [Select.projection_clause, h]
  · intro h
    rw [Select.to_sql_eq s cfg, Select.to_sql_eq s cfg2]
    simp [Select.projection_clause, h, Select.join_clause, Select.where_clause]
  · rw [Select.to_sql_eq]
    rfl
  · intro h
    rw [Select.to_sql_eq]
    simp [Select.projection_clause, h]

/-- C4 witness: with distinct set the rendering is catalog independent, and
with distinct unset the plain projection list renders. -/
theorem c4_witness :
    ((Select.make "users").distinct_str "name").to_sql usersCfg
      = ((Select.make "users").distinct_str "name").to_sql ordersCfg
    ∧ (Select.make "users").to_sql usersCfg
      = "SELECT " ++ String.intercalate "," ((Select.make "users").full_columns usersCfg)
        ++ " FROM " ++ quoteIdent "users" ++ " " ++ (Select.make "users").join_clause
        ++ " " ++ (Select.make "users").where_clause ++ " " ++ (Select.make "users").order_by_sql
        ++ " " ++ (Select.make "users").group_by_sql ++ " " ++ (Select.make "users").offset_sql
        ++ " " ++ (Select.make "users").limit_sql := by
  constructor
  · exact (c4_distinct_wins ((Select.make "users").distinct_str "name") usersCfg ordersCfg
      ("DISTINCT " ++ quoteIdent "name") "name").2.1 rfl
  · exact (c4_distinct_wins (Select.make "users") usersCfg usersCfg "" "name").2.2.2 rfl

/-- C5: with a join present and no distinct, the rendered projection is the
base table catalog columns followed by each joined table catalog columns in
the join table order; with no join and no distinct, it is exactly the base
table catalog columns. -/
theorem c5_join_projection (s : Select) (cfg : PostgresConfig) (j : Join) :
    (s._join = some j → s._distinct = none →
      s.to_sql cfg = "SELECT "
        ++ String.intercalate "," (get_columns_composed s.table_name cfg
            ++ j.tables.flatMap fun t => get_columns_composed t cfg)
        ++ " FROM " ++ quoteIdent s.table_name ++ " " ++ j.sql ++ " " ++ s.where_clause
        ++ " " ++ s.order_by_sql ++ " " ++ s.group_by_sql ++ " " ++ s.offset_sql
        ++ " " ++ s.limit_sql)
    ∧ (s._join = none → s._distinct = none →
      s.to_sql cfg = "SELECT " ++ String.intercalate "," (get_columns_composed s.table_name cfg)
        ++ " FROM " ++ quoteIdent s.table_name ++ " " ++ "" ++ " " ++ s.where_clause
        ++ " " ++ s.order_by_sql ++ " " ++ s.group_by_sql ++ " " ++ s.offset_sql
        ++ " " ++ s.limit_sql) := by
  constructor
  · intro hj hd
    rw [Select.to_sql_eq]
    simp [Select.projection_clause, Select.full_columns, Select.join_clause, hj, hd]
  · intro hj hd
    rw [Select.to_sql_eq]
    simp [Select.projection_clause, Select.full_columns, Select.join_clause, hj, hd]

/-- C5 witness: the join scenario projects the users columns then the orders
column, in that order. -/
theorem c5_witness :
    joinSelect.to_sql ordersCfg
      = "SELECT \"users\".\"id\",\"users\".\"name\",\"orders\".\"total\" FROM \"users\" JOIN \"orders\" ON users.id = orders.user_id     " := by
  have h := (c5_join_projection joinSelect ordersCfg
    ⟨[("orders", "users.id = orders.user_id")]⟩).1 rfl rfl
  rw [h]
  decide

/-- C6: the first filter call stores the leaf as the root; every later
where_and or where_or call replaces the root with a composite wrapping the
previous root and the new leaf under AND or OR respectively; a where call
with an existing filter behaves exactly as where_and; and every other
mutator leaves the accumulated tree in place. -/
theorem c6_filter_lifecycle (s : Select) (table : Option String) (c op : String) (v : Value)
    (w : Where) (j : Join) (c2 d : String) (t2 : Option String) (v2 : Value) :
    (s._where = none →
      (s.where_kw table c op v)._where = some (.leaf (s.resolveTable table) c op v)
      ∧ (s.where_and table c op v)._where = some (.leaf (s.resolveTable table) c op v)
      ∧ (s.where_or table c op v)._where = some (.leaf (s.resolveTable table) c op v))
    ∧ (s._where = some w →
      (s.where_and table c op v)._where
        = some (.comp w "AND" (.leaf (s.resolveTable table) c op v))
      ∧ (s.where_or table c op v)._where
        = some (.comp w "OR" (.leaf (s.resolveTable table) c op v))
      ∧ (s.where_kw table c op v)._where
        = some (.comp w "AND" (.leaf (s.resolveTable table) c op v)))
    ∧ s.where_kw table c op v = s.where_and table c op v
    ∧ (s.limit v2)._where = s._where
    ∧ (s.offset v2)._where = s._where
    ∧ (s.order_by c2 t2 d)._where = s._where
    ∧ (s.group_by c2 t2)._where = s._where
    ∧ (s.distinct_str c2)._where = s._where
    ∧ (s.join j)._where = s._where := by
  refine ⟨?_, ?_, ?_, rfl, rfl, rfl, rfl, rfl, ?_⟩
  · intro h
    refine ⟨?_, ?_, ?_⟩ <;>
      simp [Select.where_kw, Select.where_and, Select.where_or, h]
  · intro h
    refine ⟨?_, ?_, ?_⟩ <;>
      simp [Select.where_kw, Select.where_and, Select.where_or, Where.sql_and, Where.sql_or, h]
  · rfl
  · cases h : s._join <;> simp [Select.join, h]

/-- C6 witness: the first filter call on a fresh builder stores the leaf,
and a where_and on the scenario builder wraps the old root under AND. -/
theorem c6_witness :
    ((Select.make "users").where_kw none "id" "=" (.int 5))._where
      = some (.leaf "users" "id" "=" (.int 5))
    ∧ (scenarioSelect.where_and none "name" "=" (.str "a"))._where
      = some (.comp (.leaf "users" "id" "=" (.int 5)) "AND" (.leaf "users" "name" "=" (.str "a"))) := by
  constructor
  · exact ((c6_filter_lifecycle (Select.make "users") none "id" "=" (.int 5)
      (.leaf "users" "id" "=" (.int 5)) ⟨[]⟩ "id" "ASC" none (.int 0)).1 rfl).1
  · exact ((c6_filter_lifecycle scenarioSelect none "name" "=" (.str "a")
      (.leaf "users" "id" "=" (.int 5)) ⟨[]⟩ "id" "ASC" none (.int 0)).2.1 rfl).1

/-- C7: where, where_and, where_or with the table keyword absent, and
order_by and group_by with the table argument not given, all qualify against
the base table, while an explicitly supplied table is used unchanged. -/
theorem c7_table_default (s : Select) (c op d t : String) (v : Value) :
    s.where_kw none c op v = s.where_kw (some s.table_name) c op v
    ∧ s.where_and none c op v = s.where_and (some s.table_name) c op v
    ∧ s.where_or none c op v = s.where_or (some s.table_name) c op v
    ∧ s.order_by c none d = s.order_by c (some s.table_name) d
    ∧ s.group_by c none = s.group_by c (some s.table_name)
    ∧ (s.order_by c none d)._order_by
        = some ("ORDER BY " ++ quoteIdent s.table_name ++ "." ++ quoteIdent c ++ " " ++ d)
    ∧ (s.order_by c (some t) d)._order_by
        = some ("ORDER BY " ++ quoteIdent t ++ "." ++ quoteIdent c ++ " " ++ d)
    ∧ (s.group_by c none)._group_by
        = some ("GROUP BY " ++ quoteIdent s.table_name ++ "." ++ quoteIdent c)
    ∧ (s.group_by c (some t))._group_by
        = some ("GROUP BY " ++ quoteIdent t ++ "." ++ quoteIdent c)
    ∧ (s._where = none → (s.where_kw (some t) c op v)._where = some (.leaf t c op v)) := by
  refine ⟨rfl, rfl, rfl, rfl, rfl, rfl, rfl, rfl, rfl, ?_⟩
  intro h
  simp [Select.where_kw, Select.resolveTable, h]

/-- C7 witness: an explicitly supplied table reaches the stored leaf
unchanged on a fresh builder. -/
theorem c7_witness :
    ((Select.make "users").where_kw (some "orders") "id" "=" (.int 1))._where
      = some (.leaf "orders" "id" "=" (.int 1)) := by
  exact (c7_table_default (Select.make "users") "id" "=" "ASC" "orders" (.int 1)).2.2.2.2.2.2.2.2.2 rfl

